import Mathlib

/-!
Shallow embedding of the zabbix-libvirt monitoring agent
(src/zabbix_libvirt/libvirt_checks.py and src/zabbix_libvirt/main.py).

The libvirt client library is external: it is modelled as data carried by
the `Conn` and `Domain` structures (each underlying call is a field whose
value is the call's outcome, `Except LibvirtErr _` when the call can raise
`libvirt.libvirtError`).  The wrapper methods of class `LibvirtConnection`
are translated line by line into functions returning `Except PyExc _`,
where `PyExc` covers the Python exceptions the code can raise or re-raise.
XML descriptors (`xml.etree.ElementTree`) are modelled by the `XmlElem`
tree, with ElementTree path search and attribute access made explicit.
-/

/-- Content of a `libvirt.libvirtError`: an opaque error code and message.
The wrapper never inspects it; it only decides to swallow or re-raise. -/
structure LibvirtErr where
  code : Nat
  msg : String
deriving DecidableEq, Repr

/-- The Python exceptions that can escape the code under study. -/
inductive PyExc where
  /-- an uncaught or re-raised `libvirt.libvirtError` -/
  | libvirtError (err : LibvirtErr)
  /-- `DomainNotFoundError` raised by `_get_domain_by_uuid` -/
  | domainNotFoundError (msg : String)
  /-- `LibvirtConnectionError` raised by `LibvirtConnection.__init__` -/
  | libvirtConnectionError (msg : String)
  /-- Python `NameError`: a name was referenced that is not bound in scope -/
  | nameError (missing : String)
  /-- Python `AttributeError`, e.g. attribute access on `None` -/
  | attributeError (msg : String)
  /-- Python `ZeroDivisionError` -/
  | zeroDivisionError
deriving DecidableEq, Repr

/-- The dictionary returned by `domain.memoryStats()`: the keys the wrapper
reads (`unused`, `usable`, `actual`) may each be absent (KiB values). -/
structure MemStats where
  unused : Option Nat
  usable : Option Nat
  actual : Option Nat
deriving DecidableEq, Repr

/-- The dictionary returned by `LibvirtConnection.get_memory` (bytes). -/
structure MemoryResult where
  free : Nat
  available : Nat
  current_allocation : Nat
deriving DecidableEq, Repr

/-- The 8-tuple returned by `domain.interfaceStats(iface)`; tuple index 0
is `rx_bytes` (the first counter) and index 4 is `tx_bytes` (the fifth). -/
structure IfaceStats where
  rx_bytes : Int
  rx_packets : Int
  rx_errs : Int
  rx_drop : Int
  tx_bytes : Int
  tx_packets : Int
  tx_errs : Int
  tx_drop : Int
deriving DecidableEq, Repr

/-- A Python value that is either an int or a string: the two value shapes
that `get_ifaceio` can place in its result dictionary. -/
inductive PyVal where
  | int (n : Int)
  | str (s : String)
deriving DecidableEq, Repr

/-- The dictionary returned by `LibvirtConnection.get_ifaceio`. -/
structure IfaceResult where
  read : PyVal
  write : PyVal
deriving DecidableEq, Repr

/-- The dictionary returned by `domain.blockStatsFlags(disk)` and passed
through unchanged by `get_diskio`; its eight keys, in the order the
degraded branch of `get_diskio` lists them. -/
structure DiskStats where
  wr_total_times : Nat
  rd_operations : Nat
  flush_total_times : Nat
  rd_total_times : Nat
  rd_bytes : Nat
  flush_operations : Nat
  wr_operations : Nat
  wr_bytes : Nat
deriving DecidableEq, Repr

/-- The 5-tuple returned by `domain.info()`: indices 3 (`nrVirtCpu`) and 4
(`cpuTime`, nanoseconds) are the ones `get_cpu` reads. -/
structure DomainInfo where
  state : Nat
  maxMem : Nat
  memory : Nat
  nrVirtCpu : Nat
  cpuTime : Nat
deriving DecidableEq, Repr

/-- The dictionary returned by `LibvirtConnection.get_cpu`.  `time.time()`
is modelled as an ambient clock value passed in as `timestamp`. -/
structure CpuResult where
  cpu_time : Nat
  core_count : Nat
  timestamp : Nat
deriving DecidableEq, Repr

/-- An `xml.etree.ElementTree` element: tag (namespace-qualified tags are
written in the ElementTree form, a brace-wrapped namespace URI prefixed to
the local name), attributes, text (`None` when the element has no text),
and child elements in document order. -/
structure XmlElem where
  tag : String
  attrs : List (String × String)
  text : Option String
  children : List XmlElem

/-- The dictionary returned by `_get_instance_attributes`.  Each value is
`element.get("uuid")` or `element.text`, both of which may be `None`. -/
structure InstanceAttrs where
  user_uuid : Option String
  project_uuid : Option String
  user_name : Option String
  project_name : Option String
deriving DecidableEq, Repr

/-- The dictionary returned by `get_misc_attributes`: the instance
attributes extended with the hypervisor hostname, the domain name and the
active flag (an int, as returned by `is_active`). -/
structure MiscAttrs where
  user_uuid : Option String
  project_uuid : Option String
  user_name : Option String
  project_name : Option String
  virt_host : String
  name : String
  active : Nat
deriving DecidableEq, Repr

/-- A libvirt domain object, as the wrapper observes it: each underlying
call the wrapper makes on the handle is a field giving that call's outcome.
`isActive` is the result of the follow-up `domain.isActive()` query that
the error-reclassification branches evaluate after a counter query fails. -/
structure Domain where
  name : String
  isActive : Bool
  info : DomainInfo
  xmlDesc : XmlElem
  memoryStats : Except LibvirtErr MemStats
  interfaceStats : String → Except LibvirtErr IfaceStats
  blockStatsFlags : String → Except LibvirtErr DiskStats

/-- The open read-only libvirt connection (`self.conn`): the calls the
wrapper makes on it.  `lookupByUUIDString` either raises `libvirtError`
or returns a domain object (the binding never returns a null handle). -/
structure Conn where
  lookupByUUIDString : String → Except LibvirtErr Domain
  getHostname : String

namespace LibvirtConnection

/-- `LibvirtConnection._get_domain_by_uuid`: look the domain up by UUID,
translating a `libvirtError` into `DomainNotFoundError`. -/
def get_domain_by_uuid (conn : Conn) (domain_uuid_string : String) :
    Except PyExc Domain :=
  match conn.lookupByUUIDString domain_uuid_string with
  | .error _ => .error (.domainNotFoundError
      ("Failed to find domain: " ++ domain_uuid_string))
  | .ok domain => .ok domain

/-- `LibvirtConnection._get_domain_xmldump`: re-resolve the domain and
parse its XML description. -/
def get_domain_xmldump (conn : Conn) (domain_uuid_string : String) :
    Except PyExc XmlElem := do
  let domain ← get_domain_by_uuid conn domain_uuid_string
  pure domain.xmlDesc

/-- `LibvirtConnection.get_memory`: memory stats in bytes (the host
reports KiB, scaled by 1024; a missing key counts as 0 via `dict.get`).
A `libvirtError` from `memoryStats` is re-raised if the follow-up
`isActive` query says the domain is active, and otherwise swallowed in
favour of the all-zero record. -/
def get_memory (conn : Conn) (domain_uuid_string : String) :
    Except PyExc MemoryResult := do
  let domain ← get_domain_by_uuid conn domain_uuid_string
  match domain.memoryStats with
  | .error err =>
      if domain.isActive then
        throw (.libvirtError err)
      else
        pure { free := 0, available := 0, current_allocation := 0 }
  | .ok stats =>
      pure { free := stats.unused.getD 0 * 1024,
             available := stats.usable.getD 0 * 1024,
             current_allocation := stats.actual.getD 0 * 1024 }

/-- `LibvirtConnection.get_cpu`: `info[4]` is raw accumulated CPU time in
nanoseconds, `info[3]` the core count.  Under Python 2 (the shebang of
main.py) `/` on ints is floor division and the outer `int()` is the
identity, so `cpu_time` is the floor of the quotient; division by a zero
core count raises `ZeroDivisionError`.  `time.time()` is the ambient
clock value `now`. -/
def get_cpu (conn : Conn) (now : Nat) (domain_uuid_string : String) :
    Except PyExc CpuResult := do
  let domain ← get_domain_by_uuid conn domain_uuid_string
  let info := domain.info
  if info.nrVirtCpu = 0 then
    throw .zeroDivisionError
  else
    pure { cpu_time := info.cpuTime / info.nrVirtCpu,
           core_count := info.nrVirtCpu,
           timestamp := now }

/-- `LibvirtConnection.get_ifaceio`: on success the first and fifth
counters of the `interfaceStats` tuple, each passed through `str`; on a
`libvirtError` the same reclassification as `get_memory`, the degraded
record holding the Python int 0 in both fields. -/
def get_ifaceio (conn : Conn) (domain_uuid_string iface : String) :
    Except PyExc IfaceResult := do
  let domain ← get_domain_by_uuid conn domain_uuid_string
  match domain.interfaceStats iface with
  | .error err =>
      if domain.isActive then
        throw (.libvirtError err)
      else
        pure { read := .int 0, write := .int 0 }
  | .ok stats =>
      pure { read := .str (toString stats.rx_bytes),
             write := .str (toString stats.tx_bytes) }

/-- `LibvirtConnection.get_diskio`: on success the `blockStatsFlags`
dictionary unchanged; on a `libvirtError` the same reclassification as
`get_memory`, the degraded record having all eight fields zero. -/
def get_diskio (conn : Conn) (domain_uuid_string disk : String) :
    Except PyExc DiskStats := do
  let domain ← get_domain_by_uuid conn domain_uuid_string
  match domain.blockStatsFlags disk with
  | .error err =>
      if domain.isActive then
        throw (.libvirtError err)
      else
        pure { wr_total_times := 0, rd_operations := 0,
               flush_total_times := 0, rd_total_times := 0,
               rd_bytes := 0, flush_operations := 0,
               wr_operations := 0, wr_bytes := 0 }
  | .ok stats =>
      pure stats

/-- `LibvirtConnection.is_active`: 1 if the domain is active, 0 otherwise
(the int returned by `domain.isActive()`). -/
def is_active (conn : Conn) (domain_uuid_string : String) :
    Except PyExc Nat := do
  let domain ← get_domain_by_uuid conn domain_uuid_string
  pure (if domain.isActive then 1 else 0)

end LibvirtConnection

/-- ElementTree path search: all elements reachable from `e` along the
given child-tag path, in document order (`Element.findall` on a plain
tag path). -/
def XmlElem.findAll : List String → XmlElem → List XmlElem
  | [], e => [e]
  | t :: ts, e =>
      (e.children.filter (fun c => c.tag = t)).flatMap (XmlElem.findAll ts)

/-- ElementTree `Element.find` on a tag path: the first match in document
order, `None` when there is none. -/
def XmlElem.findFirst (path : List String) (e : XmlElem) : Option XmlElem :=
  (e.findAll path).head?

/-- ElementTree `Element.get`: the attribute value, `None` when absent. -/
def XmlElem.getAttr (e : XmlElem) (key : String) : Option String :=
  e.attrs.lookup key

/-- The nova namespace URI bound to the `nova:` prefix by the `namespaces`
mapping in `_get_instance_attributes`. -/
def novaNs : String := "http://openstack.org/xmlns/libvirt/nova/1.0"

/-- The namespace-qualified tag ElementTree resolves `nova:t` to. -/
def novaTag (t : String) : String := "\x7b" ++ novaNs ++ "\x7d" ++ t

/-- Python attribute access `e.get(key)` where `e` may be `None`: on
`None` it raises `AttributeError`; otherwise `Element.get`. -/
def pyGetAttr (e : Option XmlElem) (key : String) :
    Except PyExc (Option String) :=
  match e with
  | none => .error (.attributeError "NoneType object has no attribute get")
  | some el => .ok (el.getAttr key)

/-- Python attribute access `e.text` where `e` may be `None`: on `None`
it raises `AttributeError`; otherwise the element text. -/
def pyText (e : Option XmlElem) : Except PyExc (Option String) :=
  match e with
  | none => .error (.attributeError "NoneType object has no attribute text")
  | some el => .ok el.text

namespace LibvirtConnection

/-- The marker string of the sentinel record returned for domains without
the nova metadata block. -/
def nonOpenstack : String := "non-openstack-instance"

/-- `LibvirtConnection._get_instance_attributes`: find the
`metadata/nova:instance/nova:owner` element; absent, return the sentinel
record; present, read uuid attribute and text of its `nova:user` and
`nova:project` children, in source order. -/
def get_instance_attributes (conn : Conn) (domain_uuid_string : String) :
    Except PyExc InstanceAttrs := do
  let tree ← get_domain_xmldump conn domain_uuid_string
  match tree.findFirst ["metadata", novaTag "instance", novaTag "owner"] with
  | none =>
      pure { user_uuid := some nonOpenstack,
             project_uuid := some nonOpenstack,
             user_name := some nonOpenstack,
             project_name := some nonOpenstack }
  | some element => do
      let user_uuid ← pyGetAttr (element.findFirst [novaTag "user"]) "uuid"
      let project_uuid ← pyGetAttr (element.findFirst [novaTag "project"]) "uuid"
      let user_name ← pyText (element.findFirst [novaTag "user"])
      let project_name ← pyText (element.findFirst [novaTag "project"])
      pure { user_uuid, project_uuid, user_name, project_name }

/-- `LibvirtConnection.discover_vnics`: one record per
`devices/interface/target` element, keyed by the Zabbix macro and holding
the `dev` attribute. -/
def discover_vnics (conn : Conn) (domain_uuid_string : String) :
    Except PyExc (List (String × Option String)) := do
  let tree ← get_domain_xmldump conn domain_uuid_string
  pure ((tree.findAll ["devices", "interface", "target"]).map
    (fun element => ("\x7b#VNIC\x7d", element.getAttr "dev")))

/-- `LibvirtConnection.discover_vdisks`: one record per
`devices/disk/target` element, keyed by the Zabbix macro and holding the
`dev` attribute. -/
def discover_vdisks (conn : Conn) (domain_uuid_string : String) :
    Except PyExc (List (String × Option String)) := do
  let tree ← get_domain_xmldump conn domain_uuid_string
  pure ((tree.findAll ["devices", "disk", "target"]).map
    (fun element => ("\x7b#VDISK\x7d", element.getAttr "dev")))

/-- `LibvirtConnection.get_misc_attributes`: instance attributes extended
with the hypervisor hostname, the domain name and the `is_active` flag
(each of the three domain reads re-resolves the handle by UUID). -/
def get_misc_attributes (conn : Conn) (domain_uuid_string : String) :
    Except PyExc MiscAttrs := do
  let domain ← get_domain_by_uuid conn domain_uuid_string
  let instance_attributes ← get_instance_attributes conn domain_uuid_string
  let active ← is_active conn domain_uuid_string
  pure { user_uuid := instance_attributes.user_uuid,
         project_uuid := instance_attributes.project_uuid,
         user_name := instance_attributes.user_name,
         project_name := instance_attributes.project_name,
         virt_host := conn.getHostname,
         name := domain.name,
         active }

end LibvirtConnection

/-- The raw handle `libvirt.openReadOnly` yields on success. -/
structure RawConn where
  id : Nat
deriving DecidableEq, Repr

/-- `LibvirtConnection.__init__`: `libvirt.openReadOnly(uri)` either
raises `libvirtError` (re-raised as `LibvirtConnectionError`), returns
`None` (rejected with `LibvirtConnectionError`), or returns a handle.
`openResult` is the outcome of that underlying call. -/
def LibvirtConnection_init (openResult : Except LibvirtErr (Option RawConn))
    (uri : String) : Except PyExc RawConn :=
  match openResult with
  | .error error => .error (.libvirtConnectionError error.msg)
  | .ok none => .error (.libvirtConnectionError
      ("Failed to open connection to the hypervisor: " ++ uri))
  | .ok (some conn) => .ok conn

/-- The names bound in the module namespace of main.py: its four stdlib
imports, the single name imported from libvirt_checks
(`from libvirt_checks import LibvirtConnection`, line 10), and the
module-level constants and functions it defines. -/
def mainModuleNames : List String :=
  ["json", "logging", "sys", "argparse", "LibvirtConnection",
   "VNICS_KEY", "VDISKS_KEY", "logger", "handler", "uri",
   "parse_args", "get_instance_metrics", "get_vnic_metrics",
   "get_vdisk_metrics", "get_cpu_metrics", "get_memory_metrics",
   "list_to_zbx", "main"]

/-- Outcome of the connection phase of `main()` in main.py. -/
inductive ConnectOutcome where
  /-- the connection was opened; main proceeds to the action dispatch -/
  | proceed (conn : RawConn)
  /-- the handler ran: the error was logged and main returned, printing
  no metrics -/
  | logAndReturn
  /-- an exception escaped `main()` and crashes the process -/
  | uncaught (exc : PyExc)
deriving DecidableEq, Repr

/-- The `try: conn = LibvirtConnection(args.uri) / except
LibvirtConnectionError:` phase of `main()`.  Python evaluates the name in
an `except` clause only when an exception arrives; a name not bound in
the module namespace then raises `NameError`, replacing the handled
exception and escaping `main()`. -/
def mainConnect (openResult : Except LibvirtErr (Option RawConn))
    (uriArg : String) : ConnectOutcome :=
  match LibvirtConnection_init openResult uriArg with
  | .ok conn => .proceed conn
  | .error exc =>
      if mainModuleNames.contains "LibvirtConnectionError" then
        match exc with
        | .libvirtConnectionError _ => .logAndReturn
        | e => .uncaught e
      else
        .uncaught (.nameError "LibvirtConnectionError")

/-! Concrete sample hosts used to instantiate the theorems below. -/

/-- A bare domain descriptor with no metadata block. -/
def emptyXml : XmlElem :=
  { tag := "domain", attrs := [], text := none, children := [] }

/-- A sample `domain.info()` tuple: 2 cores, 1 second of CPU time. -/
def sampleInfo : DomainInfo :=
  { state := 1, maxMem := 4096, memory := 2048,
    nrVirtCpu := 2, cpuTime := 1000000000 }

/-- A sample `libvirt.libvirtError` content. -/
def sampleErr : LibvirtErr :=
  { code := 55, msg := "Requested operation is not valid" }

/-- An inactive domain on which every counter query raises. -/
def downDomain : Domain :=
  { name := "vm-down", isActive := false, info := sampleInfo,
    xmlDesc := emptyXml,
    memoryStats := .error sampleErr,
    interfaceStats := fun _ => .error sampleErr,
    blockStatsFlags := fun _ => .error sampleErr }

/-- An active domain on which every counter query raises. -/
def upDomain : Domain :=
  { downDomain with name := "vm-up", isActive := true }

/-- A sample successful `interfaceStats` tuple. -/
def sampleIface : IfaceStats :=
  { rx_bytes := 7, rx_packets := 1, rx_errs := 0, rx_drop := 0,
    tx_bytes := 9, tx_packets := 2, tx_errs := 0, tx_drop := 0 }

/-- A sample successful `blockStatsFlags` dictionary. -/
def sampleDisk : DiskStats :=
  { wr_total_times := 11, rd_operations := 12, flush_total_times := 13,
    rd_total_times := 14, rd_bytes := 15, flush_operations := 16,
    wr_operations := 17, wr_bytes := 18 }

/-- An active domain on which every counter query succeeds. -/
def okDomain : Domain :=
  { name := "vm-ok", isActive := true, info := sampleInfo,
    xmlDesc := emptyXml,
    memoryStats := .ok { unused := some 100, usable := some 200,
                         actual := some 50 },
    interfaceStats := fun _ => .ok sampleIface,
    blockStatsFlags := fun _ => .ok sampleDisk }

/-- A connection on which every UUID resolves to the given domain. -/
def connTo (d : Domain) : Conn :=
  { lookupByUUIDString := fun _ => .ok d, getHostname := "hv1" }

/-- A connection on which every UUID lookup raises `libvirtError`. -/
def connDown : Conn :=
  { lookupByUUIDString := fun _ => .error sampleErr, getHostname := "hv1" }

/-! Theorems for the claims. -/

/-- C1: for a domain the follow-up is-active check reports inactive, a
failure of the underlying counter query in get_memory, get_ifaceio or
get_diskio is swallowed: each operation returns its all-zero record and
never raises. -/
theorem inactive_failure_returns_zero_record
    (conn : Conn) (u iface disk : String) (d : Domain)
    (e1 e2 e3 : LibvirtErr)
    (hlook : conn.lookupByUUIDString u = .ok d)
    (hact : d.isActive = false)
    (hmem : d.memoryStats = .error e1)
    (hif : d.interfaceStats iface = .error e2)
    (hdisk : d.blockStatsFlags disk = .error e3) :
    LibvirtConnection.get_memory conn u =
      .ok { free := 0, available := 0, current_allocation := 0 } ∧
    LibvirtConnection.get_ifaceio conn u iface =
      .ok { read := .int 0, write := .int 0 } ∧
    LibvirtConnection.get_diskio conn u disk =
      .ok { wr_total_times := 0, rd_operations := 0, flush_total_times := 0,
            rd_total_times := 0, rd_bytes := 0, flush_operations := 0,
            wr_operations := 0, wr_bytes := 0 } := by
  refine ⟨?_, ?_, ?_⟩ <;>
    simp [LibvirtConnection.get_memory, LibvirtConnection.get_ifaceio,
          LibvirtConnection.get_diskio, LibvirtConnection.get_domain_by_uuid,
          hlook, hact, hmem, hif, hdisk, Bind.bind, Except.bind,
          Pure.pure, Except.pure]

/-- Witness for C1 at a concrete host: an inactive domain with failing
counter queries yields the three all-zero records. -/
theorem inactive_failure_returns_zero_record_witness :
    LibvirtConnection.get_memory (connTo downDomain) "d1" =
      .ok { free := 0, available := 0, current_allocation := 0 } ∧
    LibvirtConnection.get_ifaceio (connTo downDomain) "d1" "vnet0" =
      .ok { read := .int 0, write := .int 0 } ∧
    LibvirtConnection.get_diskio (connTo downDomain) "d1" "vda" =
      .ok { wr_total_times := 0, rd_operations := 0, flush_total_times := 0,
            rd_total_times := 0, rd_bytes := 0, flush_operations := 0,
            wr_operations := 0, wr_bytes := 0 } :=
  inactive_failure_returns_zero_record (connTo downDomain) "d1" "vnet0" "vda"
    downDomain sampleErr sampleErr sampleErr rfl rfl rfl rfl rfl

/-- C2: for a domain the follow-up is-active check reports active, a
failure of the underlying counter query in get_memory, get_ifaceio or
get_diskio is re-raised unchanged: the operation propagates exactly the
original libvirt error.  The statement quantifies over the error contents
e1, e2, e3, so the branch depends only on the follow-up is-active value,
never on the content of the error. -/
theorem active_failure_reraised_unchanged
    (conn : Conn) (u iface disk : String) (d : Domain)
    (e1 e2 e3 : LibvirtErr)
    (hlook : conn.lookupByUUIDString u = .ok d)
    (hact : d.isActive = true)
    (hmem : d.memoryStats = .error e1)
    (hif : d.interfaceStats iface = .error e2)
    (hdisk : d.blockStatsFlags disk = .error e3) :
    LibvirtConnection.get_memory conn u = .error (.libvirtError e1) ∧
    LibvirtConnection.get_ifaceio conn u iface = .error (.libvirtError e2) ∧
    LibvirtConnection.get_diskio conn u disk = .error (.libvirtError e3) := by
  refine ⟨?_, ?_, ?_⟩ <;>
    simp [LibvirtConnection.get_memory, LibvirtConnection.get_ifaceio,
          LibvirtConnection.get_diskio, LibvirtConnection.get_domain_by_uuid,
          hlook, hact, hmem, hif, hdisk, Bind.bind, Except.bind,
          throw, throwThe, MonadExceptOf.throw]

/-- Witness for C2 at a concrete host: an active domain with failing
counter queries re-raises the sample libvirt error from all three
operations. -/
theorem active_failure_reraised_unchanged_witness :
    LibvirtConnection.get_memory (connTo upDomain) "d1" =
      .error (.libvirtError sampleErr) ∧
    LibvirtConnection.get_ifaceio (connTo upDomain) "d1" "vnet0" =
      .error (.libvirtError sampleErr) ∧
    LibvirtConnection.get_diskio (connTo upDomain) "d1" "vda" =
      .error (.libvirtError sampleErr) :=
  active_failure_reraised_unchanged (connTo upDomain) "d1" "vnet0" "vda"
    upDomain sampleErr sampleErr sampleErr rfl rfl rfl rfl rfl

/-- Whether a `PyVal` is a Python string (rather than an int). -/
def PyVal.isStr : PyVal → Bool
  | .str _ => true
  | .int _ => false

/-- C3 counterexample: on the inactive-domain degraded path, get_ifaceio
returns the record with both fields the Python int 0, which is not a
string, so the fields are not always byte counts represented as
strings. -/
theorem ifaceio_degraded_fields_are_ints :
    LibvirtConnection.get_ifaceio (connTo downDomain) "d1" "vnet0" =
      .ok { read := .int 0, write := .int 0 } ∧
    (PyVal.int 0).isStr = false := by
  exact ⟨rfl, rfl⟩

/-- C3 amended: on success get_ifaceio returns the decimal-string forms
of the first and fifth counters of the interfaceStats tuple; on the
inactive-domain degraded path it returns the record holding the Python
int 0 (not a string) in both fields. -/
theorem ifaceio_read_write_forms :
    (∀ (conn : Conn) (u iface : String) (d : Domain) (s : IfaceStats),
       conn.lookupByUUIDString u = .ok d →
       d.interfaceStats iface = .ok s →
       LibvirtConnection.get_ifaceio conn u iface =
         .ok { read := .str (toString s.rx_bytes),
               write := .str (toString s.tx_bytes) }) ∧
    (∀ (conn : Conn) (u iface : String) (d : Domain) (e : LibvirtErr),
       conn.lookupByUUIDString u = .ok d →
       d.isActive = false →
       d.interfaceStats iface = .error e →
       LibvirtConnection.get_ifaceio conn u iface =
         .ok { read := .int 0, write := .int 0 }) := by
  constructor
  · intro conn u iface d s hlook hif
    simp [LibvirtConnection.get_ifaceio, LibvirtConnection.get_domain_by_uuid,
          hlook, hif, Bind.bind, Except.bind, Pure.pure, Except.pure]
  · intro conn u iface d e hlook hact hif
    simp [LibvirtConnection.get_ifaceio, LibvirtConnection.get_domain_by_uuid,
          hlook, hact, hif, Bind.bind, Except.bind, Pure.pure, Except.pure]

/-- Witness for the amended C3: the success path yields the decimal
strings of counters 7 and 9; the degraded path yields int zeros. -/
theorem ifaceio_read_write_forms_witness :
    LibvirtConnection.get_ifaceio (connTo okDomain) "d1" "vnet0" =
      .ok { read := .str "7", write := .str "9" } ∧
    LibvirtConnection.get_ifaceio (connTo downDomain) "d2" "vnet1" =
      .ok { read := .int 0, write := .int 0 } :=
  ⟨ifaceio_read_write_forms.1 (connTo okDomain) "d1" "vnet0" okDomain
      sampleIface rfl rfl,
   ifaceio_read_write_forms.2 (connTo downDomain) "d2" "vnet1" downDomain
      sampleErr rfl rfl rfl⟩

/-- C4: when the domain info block reports raw accumulated CPU time T and
a positive core count C, get_cpu returns the floor of T / C as cpu_time
(average per-core cumulative nanoseconds), C as core_count, and the
wall-clock value captured during the call as timestamp. -/
theorem get_cpu_average_per_core
    (conn : Conn) (now : Nat) (u : String) (d : Domain)
    (hlook : conn.lookupByUUIDString u = .ok d)
    (hcores : 0 < d.info.nrVirtCpu) :
    LibvirtConnection.get_cpu conn now u =
      .ok { cpu_time := d.info.cpuTime / d.info.nrVirtCpu,
            core_count := d.info.nrVirtCpu,
            timestamp := now } := by
  have hne : d.info.nrVirtCpu ≠ 0 := Nat.pos_iff_ne_zero.mp hcores
  simp [LibvirtConnection.get_cpu, LibvirtConnection.get_domain_by_uuid,
        hlook, hne, Bind.bind, Except.bind, Pure.pure, Except.pure]

/-- Witness for C4: two cores and one second of accumulated time yield
half a second of per-core time. -/
theorem get_cpu_average_per_core_witness :
    0 < okDomain.info.nrVirtCpu ∧
    LibvirtConnection.get_cpu (connTo okDomain) 1700000000 "d1" =
      .ok { cpu_time := 500000000, core_count := 2,
            timestamp := 1700000000 } :=
  ⟨by decide,
   get_cpu_average_per_core (connTo okDomain) 1700000000 "d1" okDomain
     rfl (by decide)⟩

/-- C5: on a successful memory-stats query, each field returned by
get_memory is exactly 1024 times the corresponding raw kibibyte value
(a missing raw key counting as 0), and dividing each returned field by
1024 recovers the raw value. -/
theorem get_memory_scales_by_1024
    (conn : Conn) (u : String) (d : Domain) (s : MemStats)
    (hlook : conn.lookupByUUIDString u = .ok d)
    (hmem : d.memoryStats = .ok s) :
    LibvirtConnection.get_memory conn u =
      .ok { free := s.unused.getD 0 * 1024,
            available := s.usable.getD 0 * 1024,
            current_allocation := s.actual.getD 0 * 1024 } ∧
    s.unused.getD 0 * 1024 / 1024 = s.unused.getD 0 ∧
    s.usable.getD 0 * 1024 / 1024 = s.usable.getD 0 ∧
    s.actual.getD 0 * 1024 / 1024 = s.actual.getD 0 := by
  refine ⟨?_, ?_, ?_, ?_⟩
  · simp [LibvirtConnection.get_memory, LibvirtConnection.get_domain_by_uuid,
          hlook, hmem, Bind.bind, Except.bind, Pure.pure, Except.pure]
  all_goals exact Nat.mul_div_cancel _ (by norm_num)

/-- Witness for C5: raw stats (unused 100, usable 200, actual 50) KiB
become 102400, 204800 and 51200 bytes, which divide back to the raw
values. -/
theorem get_memory_scales_by_1024_witness :
    LibvirtConnection.get_memory (connTo okDomain) "d1" =
      .ok { free := 102400, available := 204800,
            current_allocation := 51200 } ∧
    (102400 : Nat) / 1024 = 100 ∧
    (204800 : Nat) / 1024 = 200 ∧
    (51200 : Nat) / 1024 = 50 :=
  get_memory_scales_by_1024 (connTo okDomain) "d1" okDomain
    { unused := some 100, usable := some 200, actual := some 50 } rfl rfl

/-- Wrap an owner element into a full descriptor:
`domain / metadata / nova:instance / <owner>`. -/
def wrapOwner (owner : XmlElem) : XmlElem :=
  { tag := "domain", attrs := [], text := none, children :=
      [{ tag := "metadata", attrs := [], text := none, children :=
          [{ tag := novaTag "instance", attrs := [], text := none,
             children := [owner] }] }] }

/-- An owner block with no `nova:user` and no `nova:project` child. -/
def ownerNoChildren : XmlElem :=
  { tag := novaTag "owner", attrs := [], text := none, children := [] }

/-- A `nova:user` element carrying text but no uuid attribute. -/
def userNoUuid : XmlElem :=
  { tag := novaTag "user", attrs := [], text := some "alice", children := [] }

/-- A `nova:project` element carrying text but no uuid attribute. -/
def projectNoUuid : XmlElem :=
  { tag := novaTag "project", attrs := [], text := some "proj",
    children := [] }

/-- An owner block whose user and project children lack uuid attributes. -/
def ownerNoUuids : XmlElem :=
  { tag := novaTag "owner", attrs := [], text := none,
    children := [userNoUuid, projectNoUuid] }

/-- A domain whose descriptor has an owner block without children. -/
def domainOwnerNoChildren : Domain :=
  { downDomain with xmlDesc := wrapOwner ownerNoChildren }

/-- A domain whose descriptor has an owner block whose children lack
uuid attributes. -/
def domainOwnerNoUuids : Domain :=
  { downDomain with xmlDesc := wrapOwner ownerNoUuids }

/-- C6: when the descriptor has no nova owner metadata block, the
owner-metadata operation returns the record with all four fields set to
the same fixed marker string, which is non-null (a `some`) and
non-empty. -/
theorem missing_metadata_returns_sentinel
    (conn : Conn) (u : String) (d : Domain)
    (hlook : conn.lookupByUUIDString u = .ok d)
    (habs : d.xmlDesc.findFirst
      ["metadata", novaTag "instance", novaTag "owner"] = none) :
    LibvirtConnection.get_instance_attributes conn u =
      .ok { user_uuid := some LibvirtConnection.nonOpenstack,
            project_uuid := some LibvirtConnection.nonOpenstack,
            user_name := some LibvirtConnection.nonOpenstack,
            project_name := some LibvirtConnection.nonOpenstack } ∧
    LibvirtConnection.nonOpenstack ≠ "" := by
  constructor
  · simp [LibvirtConnection.get_instance_attributes,
          LibvirtConnection.get_domain_xmldump,
          LibvirtConnection.get_domain_by_uuid,
          hlook, habs, Bind.bind, Except.bind, Pure.pure, Except.pure]
  · decide

/-- Witness for C6: a descriptor with no metadata at all yields the
sentinel record. -/
theorem missing_metadata_returns_sentinel_witness :
    LibvirtConnection.get_instance_attributes (connTo downDomain) "d1" =
      .ok { user_uuid := some LibvirtConnection.nonOpenstack,
            project_uuid := some LibvirtConnection.nonOpenstack,
            user_name := some LibvirtConnection.nonOpenstack,
            project_name := some LibvirtConnection.nonOpenstack } ∧
    LibvirtConnection.nonOpenstack ≠ "" :=
  missing_metadata_returns_sentinel (connTo downDomain) "d1" downDomain
    rfl rfl

/-- C10: with the owner block present, a missing user or project child
makes the operation raise AttributeError (attribute access on None)
rather than return the sentinel record; and when both children are
present but lack the uuid attribute, the operation returns a record
whose uuid fields are None. -/
theorem partial_owner_block_behaviour :
    (∀ (conn : Conn) (u : String) (d : Domain) (el : XmlElem),
       conn.lookupByUUIDString u = .ok d →
       d.xmlDesc.findFirst
         ["metadata", novaTag "instance", novaTag "owner"] = some el →
       (el.findFirst [novaTag "user"] = none ∨
        el.findFirst [novaTag "project"] = none) →
       ∃ msg, LibvirtConnection.get_instance_attributes conn u =
         .error (.attributeError msg)) ∧
    (∀ (conn : Conn) (u : String) (d : Domain) (el ue pe : XmlElem),
       conn.lookupByUUIDString u = .ok d →
       d.xmlDesc.findFirst
         ["metadata", novaTag "instance", novaTag "owner"] = some el →
       el.findFirst [novaTag "user"] = some ue →
       el.findFirst [novaTag "project"] = some pe →
       ue.getAttr "uuid" = none →
       pe.getAttr "uuid" = none →
       LibvirtConnection.get_instance_attributes conn u =
         .ok { user_uuid := none, project_uuid := none,
               user_name := ue.text, project_name := pe.text }) := by
  constructor
  · intro conn u d el hlook howner hmiss
    cases huser : el.findFirst [novaTag "user"] with
    | none =>
        exact ⟨"NoneType object has no attribute get",
          by simp [LibvirtConnection.get_instance_attributes,
                   LibvirtConnection.get_domain_xmldump,
                   LibvirtConnection.get_domain_by_uuid, pyGetAttr,
                   hlook, howner, huser, Bind.bind, Except.bind,
                   Pure.pure, Except.pure]⟩
    | some ue =>
        rcases hmiss with hmiss | hmiss
        · rw [huser] at hmiss; cases hmiss
        · exact ⟨"NoneType object has no attribute get",
            by simp [LibvirtConnection.get_instance_attributes,
                     LibvirtConnection.get_domain_xmldump,
                     LibvirtConnection.get_domain_by_uuid, pyGetAttr,
                     hlook, howner, huser, hmiss, Bind.bind, Except.bind,
                     Pure.pure, Except.pure]⟩
  · intro conn u d el ue pe hlook howner huser hproj hunone hpnone
    simp [LibvirtConnection.get_instance_attributes,
          LibvirtConnection.get_domain_xmldump,
          LibvirtConnection.get_domain_by_uuid, pyGetAttr, pyText,
          hlook, howner, huser, hproj, hunone, hpnone,
          Bind.bind, Except.bind, Pure.pure, Except.pure]

/-- Witness for C10: an owner block without children raises
AttributeError; an owner block whose children lack uuid attributes
yields None uuid fields alongside the children's text. -/
theorem partial_owner_block_behaviour_witness :
    (∃ msg, LibvirtConnection.get_instance_attributes
       (connTo domainOwnerNoChildren) "d1" =
         .error (.attributeError msg)) ∧
    LibvirtConnection.get_instance_attributes
       (connTo domainOwnerNoUuids) "d2" =
      .ok { user_uuid := none, project_uuid := none,
            user_name := some "alice", project_name := some "proj" } :=
  ⟨partial_owner_block_behaviour.1 (connTo domainOwnerNoChildren) "d1"
     domainOwnerNoChildren ownerNoChildren rfl rfl (Or.inl rfl),
   partial_owner_block_behaviour.2 (connTo domainOwnerNoUuids) "d2"
     domainOwnerNoUuids ownerNoUuids userNoUuid projectNoUuid
     rfl rfl rfl rfl rfl rfl⟩

/-- C7: when the underlying UUID lookup raises, domain resolution returns
the DomainNotFoundError naming the UUID (so it never yields a handle),
and every inspector operation built on the lookup fails with the same
DomainNotFoundError. -/
theorem unknown_uuid_raises_domain_not_found
    (conn : Conn) (now : Nat) (u iface disk : String) (e : LibvirtErr)
    (hlook : conn.lookupByUUIDString u = .error e) :
    LibvirtConnection.get_domain_by_uuid conn u =
      .error (.domainNotFoundError ("Failed to find domain: " ++ u)) ∧
    LibvirtConnection.get_memory conn u =
      .error (.domainNotFoundError ("Failed to find domain: " ++ u)) ∧
    LibvirtConnection.get_cpu conn now u =
      .error (.domainNotFoundError ("Failed to find domain: " ++ u)) ∧
    LibvirtConnection.get_ifaceio conn u iface =
      .error (.domainNotFoundError ("Failed to find domain: " ++ u)) ∧
    LibvirtConnection.get_diskio conn u disk =
      .error (.domainNotFoundError ("Failed to find domain: " ++ u)) ∧
    LibvirtConnection.is_active conn u =
      .error (.domainNotFoundError ("Failed to find domain: " ++ u)) ∧
    LibvirtConnection.get_domain_xmldump conn u =
      .error (.domainNotFoundError ("Failed to find domain: " ++ u)) ∧
    LibvirtConnection.get_instance_attributes conn u =
      .error (.domainNotFoundError ("Failed to find domain: " ++ u)) ∧
    LibvirtConnection.discover_vnics conn u =
      .error (.domainNotFoundError ("Failed to find domain: " ++ u)) ∧
    LibvirtConnection.discover_vdisks conn u =
      .error (.domainNotFoundError ("Failed to find domain: " ++ u)) ∧
    LibvirtConnection.get_misc_attributes conn u =
      .error (.domainNotFoundError ("Failed to find domain: " ++ u)) := by
  refine ⟨?_, ?_, ?_, ?_, ?_, ?_, ?_, ?_, ?_, ?_, ?_⟩ <;>
    simp [LibvirtConnection.get_domain_by_uuid, LibvirtConnection.get_memory,
          LibvirtConnection.get_cpu, LibvirtConnection.get_ifaceio,
          LibvirtConnection.get_diskio, LibvirtConnection.is_active,
          LibvirtConnection.get_domain_xmldump,
          LibvirtConnection.get_instance_attributes,
          LibvirtConnection.discover_vnics, LibvirtConnection.discover_vdisks,
          LibvirtConnection.get_misc_attributes,
          hlook, Bind.bind, Except.bind]

/-- Witness for C7 at a host on which every lookup raises. -/
theorem unknown_uuid_raises_domain_not_found_witness :
    LibvirtConnection.get_domain_by_uuid connDown "nope" =
      .error (.domainNotFoundError "Failed to find domain: nope") ∧
    LibvirtConnection.get_memory connDown "nope" =
      .error (.domainNotFoundError "Failed to find domain: nope") ∧
    LibvirtConnection.get_cpu connDown 0 "nope" =
      .error (.domainNotFoundError "Failed to find domain: nope") ∧
    LibvirtConnection.get_ifaceio connDown "nope" "vnet0" =
      .error (.domainNotFoundError "Failed to find domain: nope") ∧
    LibvirtConnection.get_diskio connDown "nope" "vda" =
      .error (.domainNotFoundError "Failed to find domain: nope") ∧
    LibvirtConnection.is_active connDown "nope" =
      .error (.domainNotFoundError "Failed to find domain: nope") ∧
    LibvirtConnection.get_domain_xmldump connDown "nope" =
      .error (.domainNotFoundError "Failed to find domain: nope") ∧
    LibvirtConnection.get_instance_attributes connDown "nope" =
      .error (.domainNotFoundError "Failed to find domain: nope") ∧
    LibvirtConnection.discover_vnics connDown "nope" =
      .error (.domainNotFoundError "Failed to find domain: nope") ∧
    LibvirtConnection.discover_vdisks connDown "nope" =
      .error (.domainNotFoundError "Failed to find domain: nope") ∧
    LibvirtConnection.get_misc_attributes connDown "nope" =
      .error (.domainNotFoundError "Failed to find domain: nope") :=
  unknown_uuid_raises_domain_not_found connDown 0 "nope" "vnet0" "vda"
    sampleErr rfl

/-- A connection agreeing with `connTo downDomain` on UUID d1 and on the
hostname, but different elsewhere: used to witness that operations read
the connection only through the per-call lookup. -/
def connMixed : Conn :=
  { lookupByUUIDString := fun v =>
      if v = "d1" then .ok downDomain else .error sampleErr,
    getHostname := "hv1" }

/-- C9: every domain-scoped inspector operation re-resolves the handle
from the UUID on each call and uses no other handle source.  First, a
failing lookup fails the operation (each call performs the resolution);
second, two connections agreeing on the lookup at that UUID and on the
hostname are indistinguishable to every operation (the result flows only
through the freshly resolved handle, so no handle held from an earlier
operation can influence a later one). -/
theorem operations_reresolve_handle_by_uuid :
    (∀ (conn : Conn) (now : Nat) (u iface disk : String) (e : LibvirtErr),
       conn.lookupByUUIDString u = .error e →
       LibvirtConnection.get_memory conn u =
         .error (.domainNotFoundError ("Failed to find domain: " ++ u)) ∧
       LibvirtConnection.get_cpu conn now u =
         .error (.domainNotFoundError ("Failed to find domain: " ++ u)) ∧
       LibvirtConnection.get_ifaceio conn u iface =
         .error (.domainNotFoundError ("Failed to find domain: " ++ u)) ∧
       LibvirtConnection.get_diskio conn u disk =
         .error (.domainNotFoundError ("Failed to find domain: " ++ u)) ∧
       LibvirtConnection.is_active conn u =
         .error (.domainNotFoundError ("Failed to find domain: " ++ u)) ∧
       LibvirtConnection.get_domain_xmldump conn u =
         .error (.domainNotFoundError ("Failed to find domain: " ++ u)) ∧
       LibvirtConnection.get_misc_attributes conn u =
         .error (.domainNotFoundError ("Failed to find domain: " ++ u))) ∧
    (∀ (c1 c2 : Conn) (now : Nat) (u iface disk : String),
       c1.lookupByUUIDString u = c2.lookupByUUIDString u →
       c1.getHostname = c2.getHostname →
       LibvirtConnection.get_memory c1 u =
         LibvirtConnection.get_memory c2 u ∧
       LibvirtConnection.get_cpu c1 now u =
         LibvirtConnection.get_cpu c2 now u ∧
       LibvirtConnection.get_ifaceio c1 u iface =
         LibvirtConnection.get_ifaceio c2 u iface ∧
       LibvirtConnection.get_diskio c1 u disk =
         LibvirtConnection.get_diskio c2 u disk ∧
       LibvirtConnection.is_active c1 u =
         LibvirtConnection.is_active c2 u ∧
       LibvirtConnection.get_domain_xmldump c1 u =
         LibvirtConnection.get_domain_xmldump c2 u ∧
       LibvirtConnection.get_instance_attributes c1 u =
         LibvirtConnection.get_instance_attributes c2 u ∧
       LibvirtConnection.discover_vnics c1 u =
         LibvirtConnection.discover_vnics c2 u ∧
       LibvirtConnection.discover_vdisks c1 u =
         LibvirtConnection.discover_vdisks c2 u ∧
       LibvirtConnection.get_misc_attributes c1 u =
         LibvirtConnection.get_misc_attributes c2 u) := by
  constructor
  · intro conn now u iface disk e hlook
    refine ⟨?_, ?_, ?_, ?_, ?_, ?_, ?_⟩ <;>
      simp [LibvirtConnection.get_domain_by_uuid,
            LibvirtConnection.get_memory, LibvirtConnection.get_cpu,
            LibvirtConnection.get_ifaceio, LibvirtConnection.get_diskio,
            LibvirtConnection.is_active,
            LibvirtConnection.get_domain_xmldump,
            LibvirtConnection.get_instance_attributes,
            LibvirtConnection.get_misc_attributes,
            hlook, Bind.bind, Except.bind]
  · intro c1 c2 now u iface disk hlook hhost
    refine ⟨?_, ?_, ?_, ?_, ?_, ?_, ?_, ?_, ?_, ?_⟩ <;>
      · simp only [LibvirtConnection.get_memory, LibvirtConnection.get_cpu,
          LibvirtConnection.get_ifaceio, LibvirtConnection.get_diskio,
          LibvirtConnection.is_active, LibvirtConnection.get_domain_xmldump,
          LibvirtConnection.get_instance_attributes,
          LibvirtConnection.discover_vnics, LibvirtConnection.discover_vdisks,
          LibvirtConnection.get_misc_attributes,
          LibvirtConnection.get_domain_by_uuid]
        rw [hlook]
        try rw [hhost]

/-- Witness for C9: both conjuncts instantiated, the second at a pair of
connections that agree at UUID d1 and on the hostname but differ at
other UUIDs. -/
theorem operations_reresolve_handle_by_uuid_witness :
    (LibvirtConnection.get_memory connDown "nope" =
       .error (.domainNotFoundError "Failed to find domain: nope") ∧
     LibvirtConnection.get_cpu connDown 0 "nope" =
       .error (.domainNotFoundError "Failed to find domain: nope") ∧
     LibvirtConnection.get_ifaceio connDown "nope" "vnet0" =
       .error (.domainNotFoundError "Failed to find domain: nope") ∧
     LibvirtConnection.get_diskio connDown "nope" "vda" =
       .error (.domainNotFoundError "Failed to find domain: nope") ∧
     LibvirtConnection.is_active connDown "nope" =
       .error (.domainNotFoundError "Failed to find domain: nope") ∧
     LibvirtConnection.get_domain_xmldump connDown "nope" =
       .error (.domainNotFoundError "Failed to find domain: nope") ∧
     LibvirtConnection.get_misc_attributes connDown "nope" =
       .error (.domainNotFoundError "Failed to find domain: nope")) ∧
    (LibvirtConnection.get_memory (connTo downDomain) "d1" =
       LibvirtConnection.get_memory connMixed "d1" ∧
     LibvirtConnection.get_cpu (connTo downDomain) 7 "d1" =
       LibvirtConnection.get_cpu connMixed 7 "d1" ∧
     LibvirtConnection.get_ifaceio (connTo downDomain) "d1" "vnet0" =
       LibvirtConnection.get_ifaceio connMixed "d1" "vnet0" ∧
     LibvirtConnection.get_diskio (connTo downDomain) "d1" "vda" =
       LibvirtConnection.get_diskio connMixed "d1" "vda" ∧
     LibvirtConnection.is_active (connTo downDomain) "d1" =
       LibvirtConnection.is_active connMixed "d1" ∧
     LibvirtConnection.get_domain_xmldump (connTo downDomain) "d1" =
       LibvirtConnection.get_domain_xmldump connMixed "d1" ∧
     LibvirtConnection.get_instance_attributes (connTo downDomain) "d1" =
       LibvirtConnection.get_instance_attributes connMixed "d1" ∧
     LibvirtConnection.discover_vnics (connTo downDomain) "d1" =
       LibvirtConnection.discover_vnics connMixed "d1" ∧
     LibvirtConnection.discover_vdisks (connTo downDomain) "d1" =
       LibvirtConnection.discover_vdisks connMixed "d1" ∧
     LibvirtConnection.get_misc_attributes (connTo downDomain) "d1" =
       LibvirtConnection.get_misc_attributes connMixed "d1") :=
  ⟨operations_reresolve_handle_by_uuid.1 connDown 0 "nope" "vnet0" "vda"
     sampleErr rfl,
   operations_reresolve_handle_by_uuid.2 (connTo downDomain) connMixed
     7 "d1" "vnet0" "vda" rfl rfl⟩

/-- C8: `LibvirtConnection.__init__` raises `LibvirtConnectionError`
exactly when the underlying open call raises or returns a null handle,
but the top-level entry point does not terminate gracefully: main.py
never imports `LibvirtConnectionError`, so when the connection fails the
except clause itself raises `NameError` and the process crashes instead
of logging and returning. -/
theorem main_connection_failure_crashes_with_nameerror :
    LibvirtConnection_init (.error sampleErr) "qemu+tcp://h/system" =
      .error (.libvirtConnectionError sampleErr.msg) ∧
    LibvirtConnection_init (.ok none) "qemu:///system" =
      .error (.libvirtConnectionError
        "Failed to open connection to the hypervisor: qemu:///system") ∧
    LibvirtConnection_init (.ok (some { id := 7 })) "qemu:///system" =
      .ok { id := 7 } ∧
    mainModuleNames.contains "LibvirtConnectionError" = false ∧
    mainConnect (.error sampleErr) "qemu+tcp://h/system" =
      .uncaught (.nameError "LibvirtConnectionError") ∧
    mainConnect (.ok none) "qemu:///system" =
      .uncaught (.nameError "LibvirtConnectionError") := by
  refine ⟨rfl, rfl, rfl, ?_, ?_, ?_⟩ <;> decide
